import Mathlib

/-!
Verification of the command-dispatch and permission-gating layer of PsyBot,
embedded from src/bin/templates/command.js.  The classes DefaultCommand,
DefaultAlias and CommandProperty are modelled as Lean structures and pure
functions; the external collaborators that command.js requires but that are
not in this module (the errors table, the error-reply formatter, the manager
registry and its database system, the owner id from the config) are modelled
from the spec where marked.
-/

/-- Modelled from the spec: the opaque error identifiers of the external
error-string table (errors.js `commands`), listed in spec section 6:
blacklistedUser, permissionError, dmDisabled, minArgLimit, maxArgLimit,
notImplemented. -/
inductive ErrorCode where
  | blacklistedUser
  | permissionError
  | dmDisabled
  | minArgLimit
  | maxArgLimit
  | notImplemented
  deriving DecidableEq

/-- The tri-state result convention of checkProperties: JavaScript `true`
(allow), `false` (silent deny), or an error-code string (deny with reason). -/
inductive CheckResult where
  | allow
  | deny
  | err (code : ErrorCode)
  deriving DecidableEq

/-- A whitelist/blacklist rule entry, per the comment block in the
CommandProperty constructor: a type tag ("user", "channel" or "role"),
an id, and for role entries an optional `exact` flag whose absence in
JavaScript is falsy, modelled as the default false. -/
structure Entry where
  type : String
  id : String
  exact : Bool := false
  deriving DecidableEq

/-- Modelled from the spec: a chat-platform role with an id and a
rank-comparable position (discord role `calculatedPosition`). -/
structure Role where
  id : String
  calculatedPosition : Int
  deriving DecidableEq

/-- Modelled from the spec (section 6): the message sender, exposing the
user id, the role memberships (a collection keyed by role id) and the
highest-ranked role. -/
structure Member where
  id : String
  roles : List Role
  highestRole : Role
  deriving DecidableEq

/-- Modelled from the spec (section 6): the originating channel, exposing
its id and its type tag ("dm" for a direct-message channel). -/
structure Channel where
  id : String
  type : String
  deriving DecidableEq

/-- Modelled from the spec (section 6): the owning community, exposing its
role list keyed by role id. -/
structure Guild where
  roles : List Role
  deriving DecidableEq

/-- Modelled from the spec (section 6): an inbound chat-platform message. -/
structure Message where
  channel : Channel
  member : Member
  guild : Guild
  deriving DecidableEq

/-- A record of the external "cmd_lists" store, keyed by command name
(spec section 6): value shape with a whitelist and a blacklist. -/
structure PermRecord where
  whitelist : List Entry
  blacklist : List Entry
  deriving DecidableEq

/-- Modelled from the spec: the return value of getDatabase, a record whose
`_data` field is the database contents, or null when the store has no data. -/
structure DbRet where
  _data : Option (List (String × PermRecord))

/-- Modelled from the spec (section 6): the key-value store collaborator
with `getDatabase(name) -> {data}`.  Commits are recorded by the embedding
as emitted values rather than by mutating shared state. -/
structure DatabaseSystem where
  getDatabase : String → DbRet

/-- Modelled from the spec: the manager registry (`../manager`, not under
src/), a process-wide service locator; only the "Database" system is used
by command.js, so only that lookup is modelled. -/
structure Manager where
  getSystem : String → DatabaseSystem

/-- The CommandProperty state: the fields assigned in its constructor
(lines 150-183), plus `_manager`, which the class reads in
_updatePermissions (line 193) but never assigns anywhere; the
never-assigned (undefined) state is modelled as `none`. -/
structure CommandProperty where
  _command : String
  _minArgs : Int
  _maxArgs : Int
  _allowDM : Bool
  _fixedPermissions : Bool
  _whitelist : List Entry
  _blacklist : List Entry
  _useWhitelist : Bool
  _manager : Option Manager

/-- The constructor `new CommandProperty(commandName)` (lines 150-183).
`Config.owner` is external configuration (spec section 6: a single
externally configured user id seeding the default whitelist), passed here
as the `ownerId` argument.  No statement of the constructor assigns
`_manager`, so it is `none`. -/
def CommandProperty.new (ownerId commandName : String) : CommandProperty :=
  { _command := commandName
    _minArgs := -1
    _maxArgs := -1
    _allowDM := true
    _fixedPermissions := true
    _whitelist := [{ type := "user", id := ownerId }]
    _blacklist := []
    _useWhitelist := true
    _manager := none }

/-- One iteration of the blacklist loop body (lines 69-85).  The `break`
statements inside the `if`s only leave the `switch`, never the loop, so the
loop visits every entry and a later matching entry overwrites the
accumulator: a matching "user" entry assigns the blacklisted-user error, a
matching "channel" entry assigns `false` (modelled as `CheckResult.deny`),
and any other entry leaves the accumulator unchanged. -/
def blacklistStep (userID channelID : String) (isBlacklisted : Option CheckResult)
    (entry : Entry) : Option CheckResult :=
  if entry.type = "user" then
    if userID = entry.id then some (CheckResult.err ErrorCode.blacklistedUser)
    else isBlacklisted
  else if entry.type = "channel" then
    if channelID = entry.id then some CheckResult.deny
    else isBlacklisted
  else isBlacklisted

/-- The whole blacklist scan: fold the loop body over the blacklist,
starting from `null` (modelled as `none`). -/
def blacklistScan (userID channelID : String) (entries : List Entry) : Option CheckResult :=
  entries.foldl (blacklistStep userID channelID) none

/-- Whether one whitelist entry matches the caller (loop body, lines
97-117): a "user" entry matches on the caller id; a "role" entry with
`exact` matches when the caller holds a role with that id
(`roles.get(entry.id) != null`); a "role" entry without `exact` resolves
the referenced role in the guild role list and matches unless the lookup
fails or the referenced role is positioned strictly above the caller
highest role; any other entry type never matches. -/
def whitelistEntryMatches (message : Message) (entry : Entry) : Bool :=
  if entry.type = "user" then
    entry.id == message.member.id
  else if entry.type = "role" then
    if entry.exact then
      (message.member.roles.find? (fun r => r.id == entry.id)).isSome
    else
      match message.guild.roles.find? (fun r => r.id == entry.id) with
      | none => false
      | some lowRole =>
        !(decide (lowRole.calculatedPosition > message.member.highestRole.calculatedPosition))
  else
    false

/-- The whitelist loop (lines 92-118): `isWhitelisted` starts null, is only
ever assigned `true`, and the loop leaves as soon as it is true, so the
scan is the first-match search over the entries. -/
def whitelistScan (message : Message) : List Entry → Bool
  | [] => false
  | entry :: rest =>
    if whitelistEntryMatches message entry then true
    else whitelistScan message rest

/-- The stages of checkProperties after the blacklist scan (lines 90-133):
when `_useWhitelist`, return the permission error unless the whitelist scan
matched (`isWhitelisted != true`); then the DM check (lines 124-125); then
the argument bounds (lines 128-131), each skipped when the bound is -1;
otherwise `true`. -/
def postBlacklistChecks (props : CommandProperty) (message : Message)
    (args : List String) : CheckResult :=
  if props._useWhitelist = true ∧ whitelistScan message props._whitelist = false then
    CheckResult.err ErrorCode.permissionError
  else if props._allowDM = false ∧ message.channel.type = "dm" then
    CheckResult.err ErrorCode.dmDisabled
  else if props._minArgs ≠ -1 ∧ props._minArgs > (args.length : Int) then
    CheckResult.err ErrorCode.minArgLimit
  else if props._maxArgs ≠ -1 ∧ props._maxArgs < (args.length : Int) then
    CheckResult.err ErrorCode.maxArgLimit
  else CheckResult.allow

/-- `DefaultCommand.checkProperties(message, args)` (lines 61-134), a pure
function of the property state, the message and the argument list.
Stage 1 (lines 69-87): blacklist scan; a non-null accumulator is returned
(note that the JavaScript comparison `false != null` is true, so an
assigned `false` IS returned, a silent deny).  Then the whitelist, DM and
argument-bound stages. -/
def checkProperties (props : CommandProperty) (message : Message)
    (args : List String) : CheckResult :=
  match blacklistScan message.member.id message.channel.id props._blacklist with
  | some isBlacklisted => isBlacklisted
  | none => postBlacklistChecks props message args

/-- A JavaScript runtime error thrown while evaluating a method. -/
inductive JsError where
  | referenceError (name : String)
  | typeError (msg : String)
  deriving DecidableEq

/-- The values a command `run`/`exec` produces: a boolean, the implicit
`undefined` of a body with no return statement, or the
`[false, ErrorStrings.notImplemented]` pair of the default `run`. -/
inductive ExecValue where
  | bool (b : Bool)
  | undefined
  | pair (b : Bool) (code : ErrorCode)
  deriving DecidableEq

/-- The default `DefaultCommand.run` (lines 51-53): returns the pair
`[false, ErrorStrings.notImplemented]`. -/
def DefaultCommand.run (_message : Message) (_args : List String) : ExecValue :=
  ExecValue.pair false ErrorCode.notImplemented

/-- The identifiers bound at the module scope of command.js: the four
`require` bindings (lines 1-4) and the three class declarations.  The
method name `checkProperties` is not among them, and class methods are not
in scope as bare identifiers inside other methods. -/
def moduleScopeIdentifiers : List String :=
  ["Config", "ErrorStrings", "Utils", "ErrorReply",
   "DefaultCommand", "DefaultAlias", "CommandProperty"]

/-- The branching `exec` performs once it has the check result `resp`
(lines 36-41): on exactly `true`, return `this.run(message, args)`; on an
error code, send the formatted error reply (modelled by recording the
code in the sent list; `ErrorReply.error` is external formatting) and fall
through to `return false`; on `false`, `return false` with nothing sent. -/
def DefaultCommand.execDispatch (props : CommandProperty)
    (run : Message → List String → ExecValue)
    (message : Message) (args : List String) : ExecValue × List ErrorCode :=
  match checkProperties props message args with
  | CheckResult.allow => (run message args, [])
  | CheckResult.deny => (ExecValue.bool false, [])
  | CheckResult.err code => (ExecValue.bool false, [code])

/-- `DefaultCommand.exec(message, args)` (lines 34-42) as written: line 35
reads the bare identifier `checkProperties` (not `this.checkProperties`).
When that identifier resolves in the module scope the dispatch of lines
36-41 runs; otherwise evaluation throws a ReferenceError at the call. -/
def DefaultCommand.exec (props : CommandProperty)
    (run : Message → List String → ExecValue)
    (message : Message) (args : List String) :
    Except JsError (ExecValue × List ErrorCode) :=
  if "checkProperties" ∈ moduleScopeIdentifiers then
    Except.ok (DefaultCommand.execDispatch props run message args)
  else
    Except.error (JsError.referenceError ("checkProperties"))

/-- `DefaultAlias.exec(message, args)` (lines 144-146): evaluates
`this._link.exec(message, args)` and discards its value; the body has no
return statement, so a normal completion yields `undefined`, while a
thrown error propagates.  The linked command is the `link` argument,
given as its `exec` function. -/
def DefaultAlias.exec
    (link : Message → List String → Except JsError (ExecValue × List ErrorCode))
    (message : Message) (args : List String) :
    Except JsError (ExecValue × List ErrorCode) :=
  match link message args with
  | Except.error e => Except.error e
  | Except.ok result => Except.ok (ExecValue.undefined, result.2)

/-- `CommandProperty._updatePermissions` (lines 192-209).  Reading
`this._manager.getSystem` with `_manager` undefined throws a TypeError.
Otherwise: fetch the "cmd_lists" database; on null data, set the whitelist
empty, log the failure and return (`false`); when no record exists for the
command, create one from the in-memory lists and commit; finally load the
whitelist and blacklist from the record.  The embedding returns the
updated property state, the log lines (label, text) and the committed
database contents. -/
def CommandProperty._updatePermissions (props : CommandProperty) :
    Except JsError (CommandProperty × List (String × String) × List (List (String × PermRecord))) :=
  match props._manager with
  | none => Except.error (JsError.typeError ("Cannot read property getSystem of undefined"))
  | some mgr =>
    let dbSys := mgr.getSystem ("Database")
    let dbRet := dbSys.getDatabase ("cmd_lists")
    match dbRet._data with
    | none =>
      Except.ok ({ props with _whitelist := [] },
        [("CommandProperty " ++ props._command, "Failed to load whitelist database")], [])
    | some db =>
      match (db.find? (fun kv => kv.1 == props._command)).map Prod.snd with
      | none =>
        let created : PermRecord :=
          { whitelist := props._whitelist, blacklist := props._blacklist }
        let db2 := db ++ [(props._command, created)]
        Except.ok
          ({ props with _whitelist := created.whitelist, _blacklist := created.blacklist },
           [("CommandProperty " ++ props._command,
             "Permission data does not exist, creating with default permissions."),
            ("CommandProperty " ++ props._command, "Loaded permissions data")],
           [db2])
      | some record =>
        Except.ok
          ({ props with _whitelist := record.whitelist, _blacklist := record.blacklist },
           [("CommandProperty " ++ props._command, "Loaded permissions data")], [])

/-- `CommandProperty.finish` (lines 188-190): calls `_updatePermissions`. -/
def CommandProperty.finish (props : CommandProperty) :
    Except JsError (CommandProperty × List (String × String) × List (List (String × PermRecord))) :=
  props._updatePermissions

/-! Concrete sample data used by witnesses and counterexamples: a guild
message from user u1 in text channel c1; the guild has a low role (rank 2)
and a high role (rank 5), and u1 holds the high role. -/

def sampleRoleLow : Role := { id := "rLow", calculatedPosition := 2 }

def sampleRoleHigh : Role := { id := "rHigh", calculatedPosition := 5 }

def sampleMessage : Message :=
  { channel := { id := "c1", type := "text" }
    member := { id := "u1", roles := [sampleRoleHigh], highestRole := sampleRoleHigh }
    guild := { roles := [sampleRoleLow, sampleRoleHigh] } }

/-! Helper lemmas about the blacklist scan. -/

/-- A fold of the blacklist loop body over entries that all leave the
accumulator unchanged is the accumulator. -/
theorem foldl_blacklistStep_fixed (u c : String) (acc : Option CheckResult) :
    ∀ l : List Entry, (∀ e ∈ l, blacklistStep u c acc e = acc) →
      l.foldl (blacklistStep u c) acc = acc := by
  intro l
  induction l with
  | nil => intro _; rfl
  | cons e rest ih =>
    intro h
    rw [List.foldl_cons, h e (List.mem_cons_self e rest)]
    exact ih (fun e2 he2 => h e2 (List.mem_cons_of_mem e he2))

/-- The only values the blacklist accumulator can take: null, `false`,
or the blacklisted-user error. -/
def blacklistValue (r : Option CheckResult) : Prop :=
  r = none ∨ r = some CheckResult.deny ∨ r = some (CheckResult.err ErrorCode.blacklistedUser)

theorem blacklistStep_value (u c : String) (acc : Option CheckResult) (e : Entry)
    (h : blacklistValue acc) : blacklistValue (blacklistStep u c acc e) := by
  unfold blacklistStep
  split_ifs <;> simp [blacklistValue] <;> tauto

theorem foldl_blacklistStep_value (u c : String) :
    ∀ (l : List Entry) (acc : Option CheckResult), blacklistValue acc →
      blacklistValue (l.foldl (blacklistStep u c) acc)
  | [], _, h => h
  | e :: rest, acc, h =>
    foldl_blacklistStep_value u c rest (blacklistStep u c acc e) (blacklistStep_value u c acc e h)

theorem blacklistScan_value (u c : String) (l : List Entry) :
    blacklistValue (blacklistScan u c l) :=
  foldl_blacklistStep_value u c l none (Or.inl rfl)

/-- When the blacklist scan ends non-null, checkProperties returns its
value (line 86-87). -/
theorem checkProperties_blacklisted (props : CommandProperty) (message : Message)
    (args : List String) (r : CheckResult)
    (h : blacklistScan message.member.id message.channel.id props._blacklist = some r) :
    checkProperties props message args = r := by
  unfold checkProperties
  rw [h]

/-- When the blacklist scan ends null, checkProperties runs the later
stages. -/
theorem checkProperties_clear (props : CommandProperty) (message : Message)
    (args : List String)
    (h : blacklistScan message.member.id message.channel.id props._blacklist = none) :
    checkProperties props message args = postBlacklistChecks props message args := by
  unfold checkProperties
  rw [h]

/-! Helper lemmas for entries of unrecognized type. -/

/-- The entry types the blacklist switch (lines 71-84) has cases for. -/
def recognizedBlacklistType (entry : Entry) : Bool :=
  entry.type == "user" || entry.type == "channel"

/-- The entry types the whitelist switch (lines 98-117) has cases for. -/
def recognizedWhitelistType (entry : Entry) : Bool :=
  entry.type == "user" || entry.type == "role"

theorem blacklistStep_unrecognized (u c : String) (acc : Option CheckResult)
    (entry : Entry) (h : recognizedBlacklistType entry = false) :
    blacklistStep u c acc entry = acc := by
  simp only [recognizedBlacklistType, Bool.or_eq_false_iff, beq_eq_false_iff_ne, ne_eq] at h
  simp [blacklistStep, h.1, h.2]

theorem foldl_blacklistStep_filter (u c : String) :
    ∀ (l : List Entry) (acc : Option CheckResult),
      (l.filter recognizedBlacklistType).foldl (blacklistStep u c) acc
        = l.foldl (blacklistStep u c) acc := by
  intro l
  induction l with
  | nil => intro _; rfl
  | cons e rest ih =>
    intro acc
    rw [List.filter_cons]
    by_cases h : recognizedBlacklistType e
    · rw [if_pos h, List.foldl_cons, List.foldl_cons]
      exact ih (blacklistStep u c acc e)
    · have h2 : recognizedBlacklistType e = false := by simpa using h
      rw [if_neg h, List.foldl_cons, blacklistStep_unrecognized u c acc e h2]
      exact ih acc

theorem blacklistScan_filter (u c : String) (l : List Entry) :
    blacklistScan u c (l.filter recognizedBlacklistType) = blacklistScan u c l :=
  foldl_blacklistStep_filter u c l none

theorem whitelistEntryMatches_unrecognized (message : Message) (entry : Entry)
    (h : recognizedWhitelistType entry = false) :
    whitelistEntryMatches message entry = false := by
  simp only [recognizedWhitelistType, Bool.or_eq_false_iff, beq_eq_false_iff_ne, ne_eq] at h
  simp [whitelistEntryMatches, h.1, h.2]

theorem whitelistScan_filter (message : Message) :
    ∀ l : List Entry,
      whitelistScan message (l.filter recognizedWhitelistType) = whitelistScan message l := by
  intro l
  induction l with
  | nil => rfl
  | cons e rest ih =>
    rw [List.filter_cons]
    by_cases h : recognizedWhitelistType e
    · rw [if_pos h]
      unfold whitelistScan
      rw [ih]
    · have h2 : recognizedWhitelistType e = false := by simpa using h
      rw [if_neg h]
      conv => rhs; rw [whitelistScan]
      rw [whitelistEntryMatches_unrecognized message e h2, if_neg (by simp), ih]

/-! Concrete property states used by witnesses and counterexamples. -/

/-- Blacklist-free default-allow state with one matching channel blacklist
entry for channel c1. -/
def channelBlacklistProps : CommandProperty :=
  { CommandProperty.new "owner" "ping" with
      _useWhitelist := false
      _blacklist := [{ type := "channel", id := "c1" }] }

/-- Whitelisted caller u1 who is also user-blacklisted, with a matching
channel entry after the user entry. -/
def userThenChannelProps : CommandProperty :=
  { CommandProperty.new "owner" "ping" with
      _whitelist := [{ type := "user", id := "u1" }]
      _blacklist := [{ type := "user", id := "u1" }, { type := "channel", id := "c1" }] }

/-- Whitelisted caller u1 who is also user-blacklisted (no channel entry). -/
def userBlacklistProps : CommandProperty :=
  { CommandProperty.new "owner" "ping" with
      _whitelist := [{ type := "user", id := "u1" }]
      _blacklist := [{ type := "user", id := "u1" }] }

/-- C1: the claim describes exec(message, args) as calling checkProperties
and branching on its result (run on true, silent false, error reply
otherwise).  The code never reaches that branching: line 35 reads the bare
identifier checkProperties, which is not bound at module scope, so every
call of DefaultCommand.exec throws a ReferenceError; run is never invoked
and no reply is ever sent. -/
theorem C1_exec_throws_reference_error (props : CommandProperty)
    (run : Message → List String → ExecValue)
    (message : Message) (args : List String) :
    DefaultCommand.exec props run message args
      = Except.error (JsError.referenceError ("checkProperties")) := by
  unfold DefaultCommand.exec
  rw [if_neg (by decide)]

/-- C2 counterexample: the claim says a blacklist channel entry matching
the current channel does not block the command.  In the state
channelBlacklistProps (default-allow, so the caller is otherwise
authorized: with the blacklist emptied the check allows and dispatch
returns the run result), the matching channel entry makes checkProperties
return deny (JavaScript false, since false != null is true), and the
dispatch of exec returns false without invoking run and without sending
anything: the command is blocked. -/
theorem C2_counterexample :
    checkProperties channelBlacklistProps sampleMessage [] = CheckResult.deny
    ∧ DefaultCommand.execDispatch channelBlacklistProps DefaultCommand.run sampleMessage []
        = (ExecValue.bool false, [])
    ∧ checkProperties { channelBlacklistProps with _blacklist := [] } sampleMessage []
        = CheckResult.allow
    ∧ DefaultCommand.execDispatch { channelBlacklistProps with _blacklist := [] }
        DefaultCommand.run sampleMessage []
        = (ExecValue.pair false ErrorCode.notImplemented, [])
    ∧ (ExecValue.bool false : ExecValue) ≠ ExecValue.pair false ErrorCode.notImplemented := by
  refine ⟨by decide, by decide, by decide, by decide, by decide⟩

/-- C2 amended: a blacklist channel entry matching the current channel DOES
block the command, silently: whenever such an entry is the last matching
entry of the blacklist scan (no later entry is a matching user entry),
checkProperties returns false and the dispatch of exec returns false with
nothing sent and without invoking run. -/
theorem C2_channel_blacklist_blocks_silently
    (props : CommandProperty) (message : Message) (args : List String)
    (run : Message → List String → ExecValue)
    (pre rest : List Entry) (ch : Entry)
    (hbl : props._blacklist = pre ++ ch :: rest)
    (ht : ch.type = "channel") (hid : message.channel.id = ch.id)
    (hrest : ∀ e ∈ rest, e.type = "user" → message.member.id ≠ e.id) :
    checkProperties props message args = CheckResult.deny
    ∧ DefaultCommand.execDispatch props run message args = (ExecValue.bool false, []) := by
  have hscan : blacklistScan message.member.id message.channel.id props._blacklist
      = some CheckResult.deny := by
    rw [hbl]
    unfold blacklistScan
    rw [List.foldl_append, List.foldl_cons]
    have hstep : blacklistStep message.member.id message.channel.id
        (List.foldl (blacklistStep message.member.id message.channel.id) none pre) ch
        = some CheckResult.deny := by
      simp [blacklistStep, ht, hid]
    rw [hstep]
    apply foldl_blacklistStep_fixed
    intro e he
    by_cases hu : e.type = "user"
    · simp [blacklistStep, hu, hrest e he hu]
    · by_cases hc : e.type = "channel"
      · by_cases hce : message.channel.id = e.id
        · simp [blacklistStep, hu, hc, hce]
        · simp [blacklistStep, hu, hc, hce]
      · simp [blacklistStep, hu, hc]
  refine ⟨checkProperties_blacklisted props message args CheckResult.deny hscan, ?_⟩
  unfold DefaultCommand.execDispatch
  rw [checkProperties_blacklisted props message args CheckResult.deny hscan]

/-- C2 witness: the amended statement at the concrete blocked input. -/
theorem C2_witness :
    checkProperties channelBlacklistProps sampleMessage [] = CheckResult.deny
    ∧ DefaultCommand.execDispatch channelBlacklistProps DefaultCommand.run sampleMessage []
        = (ExecValue.bool false, []) :=
  C2_channel_blacklist_blocks_silently channelBlacklistProps sampleMessage []
    DefaultCommand.run [] [] { type := "channel", id := "c1" } rfl rfl rfl
    (by intro e he; cases he)

/-- C3 counterexample: the claim says a matching user blacklist entry
always makes checkProperties return the blacklisted-user error.  In
userThenChannelProps the blacklist holds a matching user entry (and the
caller is whitelisted), yet a later matching channel entry overwrites the
accumulator, so checkProperties returns false, not the blacklisted-user
error. -/
theorem C3_counterexample :
    (∃ e ∈ userThenChannelProps._blacklist, e.type = "user" ∧ e.id = sampleMessage.member.id)
    ∧ whitelistScan sampleMessage userThenChannelProps._whitelist = true
    ∧ checkProperties userThenChannelProps sampleMessage [] = CheckResult.deny
    ∧ CheckResult.deny ≠ CheckResult.err ErrorCode.blacklistedUser := by
  refine ⟨⟨{ type := "user", id := "u1" }, by decide, by decide, by decide⟩,
    by decide, by decide, by decide⟩

/-- C3 amended: a user blacklist entry matching the caller makes
checkProperties return the blacklisted-user error, even when the caller
also satisfies the whitelist, provided no later blacklist entry is a
matching channel entry (the scan keeps the value of the last matching
entry, so a later matching channel entry turns the result into a silent
false instead). -/
theorem C3_user_blacklist_error
    (props : CommandProperty) (message : Message) (args : List String)
    (pre rest : List Entry) (u : Entry)
    (hbl : props._blacklist = pre ++ u :: rest)
    (ht : u.type = "user") (hid : message.member.id = u.id)
    (hrest : ∀ e ∈ rest, e.type = "channel" → message.channel.id ≠ e.id) :
    checkProperties props message args = CheckResult.err ErrorCode.blacklistedUser := by
  have hscan : blacklistScan message.member.id message.channel.id props._blacklist
      = some (CheckResult.err ErrorCode.blacklistedUser) := by
    rw [hbl]
    unfold blacklistScan
    rw [List.foldl_append, List.foldl_cons]
    have hstep : blacklistStep message.member.id message.channel.id
        (List.foldl (blacklistStep message.member.id message.channel.id) none pre) u
        = some (CheckResult.err ErrorCode.blacklistedUser) := by
      simp [blacklistStep, ht, hid]
    rw [hstep]
    apply foldl_blacklistStep_fixed
    intro e he
    by_cases hu : e.type = "user"
    · by_cases hue : message.member.id = e.id
      · simp [blacklistStep, hu, hue]
      · simp [blacklistStep, hu, hue]
    · by_cases hc : e.type = "channel"
      · simp [blacklistStep, hu, hc, hrest e he hc]
      · simp [blacklistStep, hu, hc]
  exact checkProperties_blacklisted props message args _ hscan

/-- C3 witness: the amended statement at a concrete input where the
whitelisted caller u1 is user-blacklisted with no later channel entry. -/
theorem C3_witness :
    checkProperties userBlacklistProps sampleMessage []
      = CheckResult.err ErrorCode.blacklistedUser :=
  C3_user_blacklist_error userBlacklistProps sampleMessage [] [] []
    { type := "user", id := "u1" } rfl rfl rfl (by intro e he; cases he)

/-- C4: during the whitelist scan, a role entry with exact matches iff the
caller holds the role with exactly that id; a role entry without exact
matches iff the referenced role resolves in the guild role list and the
caller highest role is ranked greater than or equal to it; an unresolvable
referenced role never matches. -/
theorem C4_role_whitelist_matching (message : Message) (entry : Entry)
    (ht : entry.type = "role") :
    (entry.exact = true →
      (whitelistEntryMatches message entry = true
        ↔ ∃ r ∈ message.member.roles, r.id = entry.id))
    ∧ (entry.exact = false →
        ((message.guild.roles.find? (fun r => r.id == entry.id)) = none →
          whitelistEntryMatches message entry = false)
        ∧ (∀ lowRole, (message.guild.roles.find? (fun r => r.id == entry.id)) = some lowRole →
            (whitelistEntryMatches message entry = true
              ↔ message.member.highestRole.calculatedPosition
                  ≥ lowRole.calculatedPosition))) := by
  refine ⟨?_, ?_⟩
  · intro hex
    simp [whitelistEntryMatches, ht, hex, List.find?_isSome]
  · intro hex
    refine ⟨?_, ?_⟩
    · intro hnone
      simp [whitelistEntryMatches, ht, hex, hnone]
    · intro lowRole hsome
      simp [whitelistEntryMatches, ht, hex, hsome, not_lt, ge_iff_le]

/-- C4 witness: both role-matching modes at concrete entries: an exact
entry for the held role rHigh, and a ranked entry for the guild role rLow. -/
theorem C4_witness :
    (whitelistEntryMatches sampleMessage { type := "role", id := "rHigh", exact := true } = true
      ↔ ∃ r ∈ sampleMessage.member.roles, r.id = "rHigh")
    ∧ (whitelistEntryMatches sampleMessage { type := "role", id := "rLow" } = true
      ↔ sampleMessage.member.highestRole.calculatedPosition
          ≥ sampleRoleLow.calculatedPosition) :=
  ⟨(C4_role_whitelist_matching sampleMessage { type := "role", id := "rHigh", exact := true }
      rfl).1 rfl,
   ((C4_role_whitelist_matching sampleMessage { type := "role", id := "rLow" } rfl).2
      rfl).2 sampleRoleLow (by decide)⟩

/-- Default-deny state with an empty whitelist and a blacklist entry
matching caller u1. -/
def emptyWhitelistProps : CommandProperty :=
  { CommandProperty.new "owner" "ping" with
      _whitelist := []
      _blacklist := [{ type := "user", id := "u1" }] }

/-- Default-deny state with an empty whitelist and an empty blacklist. -/
def emptyBothProps : CommandProperty :=
  { CommandProperty.new "owner" "ping" with _whitelist := [] }

/-- C5 counterexample: the claim says every invocation under
useWhitelist=true with an empty whitelist is denied with the
permission-error code, for every such property state.  In
emptyWhitelistProps the blacklist decides first: the invocation is denied
with the blacklisted-user error, not the permission error. -/
theorem C5_counterexample :
    emptyWhitelistProps._useWhitelist = true
    ∧ emptyWhitelistProps._whitelist = []
    ∧ checkProperties emptyWhitelistProps sampleMessage []
        = CheckResult.err ErrorCode.blacklistedUser
    ∧ CheckResult.err ErrorCode.blacklistedUser ≠ CheckResult.err ErrorCode.permissionError := by
  refine ⟨by decide, by decide, by decide, by decide⟩

/-- C5 amended: with useWhitelist=true and an empty whitelist, every
invocation is denied (never allowed), and it is denied with the
permission-error code whenever the blacklist scan decides nothing; a
matching blacklist entry yields the blacklisted-user error or a silent
false instead. -/
theorem C5_empty_whitelist_denies
    (props : CommandProperty) (message : Message) (args : List String)
    (hw : props._useWhitelist = true) (hwl : props._whitelist = []) :
    checkProperties props message args ≠ CheckResult.allow
    ∧ (blacklistScan message.member.id message.channel.id props._blacklist = none →
        checkProperties props message args = CheckResult.err ErrorCode.permissionError) := by
  have hperm : blacklistScan message.member.id message.channel.id props._blacklist = none →
      checkProperties props message args = CheckResult.err ErrorCode.permissionError := by
    intro hn
    rw [checkProperties_clear props message args hn]
    unfold postBlacklistChecks
    rw [if_pos ⟨hw, by rw [hwl]; rfl⟩]
  refine ⟨?_, hperm⟩
  have hv := blacklistScan_value message.member.id message.channel.id props._blacklist
  unfold blacklistValue at hv
  rcases hv with h | h | h
  · rw [hperm h]
    intro hcon
    exact CheckResult.noConfusion hcon
  · rw [checkProperties_blacklisted props message args _ h]
    intro hcon
    exact CheckResult.noConfusion hcon
  · rw [checkProperties_blacklisted props message args _ h]
    intro hcon
    exact CheckResult.noConfusion hcon

/-- C5 witness: the amended statement at the concrete empty-whitelist,
empty-blacklist state: the caller is denied with the permission error. -/
theorem C5_witness :
    checkProperties emptyBothProps sampleMessage []
      = CheckResult.err ErrorCode.permissionError :=
  (C5_empty_whitelist_denies emptyBothProps sampleMessage [] rfl rfl).2 rfl

/-- Default-allow state with no blacklist: its check allows and its
dispatch completes normally with the default run result. -/
def allowAllProps : CommandProperty :=
  { CommandProperty.new "owner" "ping" with _useWhitelist := false }

/-- The exec of a linked command whose dispatch completes normally, used to
compare an alias against its link: it returns the dispatch of
allowAllProps with the default run. -/
def linkedExec (message : Message) (args : List String) :
    Except JsError (ExecValue × List ErrorCode) :=
  Except.ok (DefaultCommand.execDispatch allowAllProps DefaultCommand.run message args)

/-- C6 counterexample: the claim says the alias exec produces the
identical result as the linked exec.  The alias body discards the value of
the forwarded call and has no return statement, so against a linked exec
that completes normally with the run result, the alias returns undefined:
the results differ. -/
theorem C6_counterexample :
    DefaultAlias.exec linkedExec sampleMessage [] = Except.ok (ExecValue.undefined, [])
    ∧ linkedExec sampleMessage []
        = Except.ok (ExecValue.pair false ErrorCode.notImplemented, [])
    ∧ DefaultAlias.exec linkedExec sampleMessage [] ≠ linkedExec sampleMessage [] := by
  refine ⟨rfl, rfl, ?_⟩
  intro hcon
  have h1 : (ExecValue.undefined, ([] : List ErrorCode))
      = (ExecValue.pair false ErrorCode.notImplemented, ([] : List ErrorCode)) := by
    injection hcon
  exact ExecValue.noConfusion (congrArg Prod.fst h1)

/-- C6 amended: the alias exec forwards the call to the linked exec with
the same message and arguments, propagating a thrown error unchanged and
performing the same sends, but it discards the linked return value: on a
normal completion of the link it returns undefined rather than the linked
result. -/
theorem C6_alias_forwards_discarding_result
    (link : Message → List String → Except JsError (ExecValue × List ErrorCode))
    (message : Message) (args : List String) :
    (∀ e, link message args = Except.error e →
        DefaultAlias.exec link message args = Except.error e)
    ∧ (∀ v sent, link message args = Except.ok (v, sent) →
        DefaultAlias.exec link message args = Except.ok (ExecValue.undefined, sent)) := by
  constructor
  · intro e h
    unfold DefaultAlias.exec
    rw [h]
  · intro v sent h
    unfold DefaultAlias.exec
    rw [h]

/-- C6 witness: the amended statement applied to the concrete link that
completes normally: the alias yields undefined with no sends. -/
theorem C6_witness :
    DefaultAlias.exec linkedExec sampleMessage [] = Except.ok (ExecValue.undefined, []) :=
  (C6_alias_forwards_discarding_result linkedExec sampleMessage []).2
    (ExecValue.pair false ErrorCode.notImplemented) [] rfl

/-- C7: when the property state has a manager and the fetched "cmd_lists"
database has no data, the permission load invoked by finish sets the
whitelist to the empty list, logs the failure, commits nothing, and
returns (line 196-200) without throwing. -/
theorem C7_store_unavailable_degrades
    (props : CommandProperty) (mgr : Manager)
    (hm : props._manager = some mgr)
    (hd : ((mgr.getSystem ("Database")).getDatabase ("cmd_lists"))._data = none) :
    CommandProperty.finish props =
      Except.ok ({ props with _whitelist := [] },
        [("CommandProperty " ++ props._command, "Failed to load whitelist database")],
        []) := by
  simp only [CommandProperty.finish, CommandProperty._updatePermissions, hm, hd]

/-- A manager whose database system returns a record with null data for
every database name: the unavailable store. -/
def unavailableManager : Manager :=
  { getSystem := fun _ => { getDatabase := fun _ => { _data := none } } }

/-- A property state wired to the unavailable store. -/
def unavailableStoreProps : CommandProperty :=
  { CommandProperty.new "owner" "ping" with _manager := some unavailableManager }

/-- C7 witness: finishing against the unavailable store at the concrete
state: whitelist emptied, failure logged, nothing committed, no throw. -/
theorem C7_witness :
    CommandProperty.finish unavailableStoreProps =
      Except.ok ({ unavailableStoreProps with _whitelist := [] },
        [("CommandProperty " ++ unavailableStoreProps._command,
          "Failed to load whitelist database")], []) :=
  C7_store_unavailable_degrades unavailableStoreProps unavailableManager rfl rfl

/-- State with bounds minArgs=2 and maxArgs=4 and no other restriction. -/
def boundsProps : CommandProperty :=
  { CommandProperty.new "owner" "ping" with
      _useWhitelist := false
      _minArgs := 2
      _maxArgs := 4 }

/-- C8: once the blacklist scan decides nothing, the whitelist stage
passes and the channel-type stage passes, a state with minArgs=2 and
maxArgs=4 yields the min-arg-limit error on 1 argument, the max-arg-limit
error on 5 arguments and true on 2 to 4 arguments; and with both bounds
-1 neither bound is checked and the result is true. -/
theorem C8_argument_bounds
    (props : CommandProperty) (message : Message) (args : List String)
    (hbl : blacklistScan message.member.id message.channel.id props._blacklist = none)
    (hwl : props._useWhitelist = false ∨ whitelistScan message props._whitelist = true)
    (hdm : props._allowDM = true ∨ ¬ message.channel.type = "dm") :
    (props._minArgs = 2 → props._maxArgs = 4 →
      (args.length = 1 →
        checkProperties props message args = CheckResult.err ErrorCode.minArgLimit)
      ∧ (args.length = 5 →
        checkProperties props message args = CheckResult.err ErrorCode.maxArgLimit)
      ∧ (2 ≤ args.length → args.length ≤ 4 →
        checkProperties props message args = CheckResult.allow))
    ∧ (props._minArgs = -1 → props._maxArgs = -1 →
        checkProperties props message args = CheckResult.allow) := by
  have hnw : ¬ (props._useWhitelist = true ∧ whitelistScan message props._whitelist = false) := by
    rcases hwl with h | h
    · intro hcon; rw [h] at hcon; exact Bool.noConfusion hcon.1
    · intro hcon; rw [h] at hcon; exact Bool.noConfusion hcon.2
  have hnd : ¬ (props._allowDM = false ∧ message.channel.type = "dm") := by
    rcases hdm with h | h
    · intro hcon; rw [h] at hcon; exact Bool.noConfusion hcon.1
    · exact fun hcon => h hcon.2
  rw [checkProperties_clear props message args hbl]
  unfold postBlacklistChecks
  rw [if_neg hnw, if_neg hnd]
  constructor
  · intro hmin hmax
    rw [hmin, hmax]
    refine ⟨?_, ?_, ?_⟩
    · intro hlen
      rw [hlen, if_pos (by omega)]
    · intro hlen
      rw [hlen, if_neg (by omega), if_pos (by omega)]
    · intro h2 h4
      rw [if_neg (by omega), if_neg (by omega)]
  · intro hmin hmax
    rw [hmin, hmax, if_neg (by omega), if_neg (by omega)]

/-- C8 witness: the bounds at the concrete state: 1 argument hits the
min-arg error and 3 arguments pass. -/
theorem C8_witness :
    (checkProperties boundsProps sampleMessage ["a"]
        = CheckResult.err ErrorCode.minArgLimit)
    ∧ (checkProperties boundsProps sampleMessage ["a", "b", "c"]
        = CheckResult.allow) :=
  ⟨((C8_argument_bounds boundsProps sampleMessage ["a"] rfl (Or.inl rfl)
      (Or.inl rfl)).1 rfl rfl).1 rfl,
   (((C8_argument_bounds boundsProps sampleMessage ["a", "b", "c"] rfl (Or.inl rfl)
      (Or.inl rfl)).1 rfl rfl).2).2 (by decide) (by decide)⟩

/-- C9: the constructor of CommandProperty never assigns the _manager
field, so a constructed property has no manager, and finish, which
evaluates this._manager.getSystem inside _updatePermissions, throws a
TypeError on the undefined field and cannot complete the
persisted-permission load. -/
theorem C9_manager_never_assigned (ownerId commandName : String) :
    (CommandProperty.new ownerId commandName)._manager = none
    ∧ CommandProperty.finish (CommandProperty.new ownerId commandName)
        = Except.error (JsError.typeError ("Cannot read property getSystem of undefined")) :=
  ⟨rfl, rfl⟩

/-- C10: removing every blacklist entry whose type is neither "user" nor
"channel" and every whitelist entry whose type is neither "user" nor
"role" leaves the result of checkProperties unchanged on every message and
argument list: both scans ignore entries of unrecognized type. -/
theorem C10_unrecognized_types_ignored (props : CommandProperty) (message : Message)
    (args : List String) :
    checkProperties props message args
      = checkProperties
          { props with
              _blacklist := props._blacklist.filter recognizedBlacklistType
              _whitelist := props._whitelist.filter recognizedWhitelistType }
          message args := by
  unfold checkProperties postBlacklistChecks
  simp only [blacklistScan_filter, whitelistScan_filter]
